import Mathlib

/-!
Verification of the proxy/audit handler `predict_with_logging` from
`src/function/main.py` (mlops-potw).  The handler is embedded as a pure
function over an explicit environment that supplies the outcomes of all
external effects: the clock (`time.time()` at entry and at the point the
upstream outcome is obtained), the UTC timestamp, the upstream HTTP call
(`requests.post`), and the audit sink (`bq_client.insert_rows_json`).
The handler result records the caller-visible response triple together
with the observable side effects: the upstream bodies posted, the sink
calls attempted, and the side-channel log lines printed.
-/

/-- A JSON value as produced by Python's `json` / Flask `get_json`.
Numbers are modelled as rationals. -/
inductive Json where
  | null
  | bool (b : Bool)
  | num (q : ℚ)
  | str (s : String)
  | arr (elems : List Json)
  | obj (fields : List (String × Json))

/-- Python truthiness of a decoded JSON value (`if not request_json`,
`if not week_start`): `None`, `False`, `0`, `""`, `[]`, `{}` are falsy. -/
def Json.truthy : Json → Bool
  | .null => false
  | .bool b => b
  | .num q => decide (q ≠ 0)
  | .str s => decide (s ≠ "")
  | .arr xs => !xs.isEmpty
  | .obj fs => !fs.isEmpty

/-- Whether a JSON value is an array. -/
def Json.isArr : Json → Bool
  | .arr _ => true
  | _ => false

/-- The inbound HTTP request as the handler observes it.
`body` is the result of `request.get_json(silent=True)`: `none` when the
body is absent or not parseable as JSON, otherwise the decoded value. -/
structure Request where
  method : String
  xForwardedFor : Option String
  remoteAddr : Option String
  body : Option Json

/-- Client IP extraction (main.py lines 39-41):
`request.headers.get("X-Forwarded-For", request.remote_addr)`, then if the
value is truthy and contains a comma, take the first comma-separated entry
and strip whitespace. -/
def extractClientIp (xForwardedFor remoteAddr : Option String) : Option String :=
  let client_ip := match xForwardedFor with
    | some s => some s
    | none => remoteAddr
  match client_ip with
  | none => none
  | some s =>
      if s ≠ "" ∧ s.contains ',' then
        some (((s.splitOn ",").headD "").trim)
      else
        some s

/-- The CORS headers set for every response (main.py lines 44-48). -/
def corsHeaders : List (String × String) :=
  [("Access-Control-Allow-Origin", "*"),
   ("Access-Control-Allow-Methods", "POST, OPTIONS"),
   ("Access-Control-Allow-Headers", "Content-Type")]

/-- `{"Content-Type": "application/json", **headers}`: the JSON content
type followed by the CORS headers. -/
def jsonHeaders : List (String × String) :=
  ("Content-Type", "application/json") :: corsHeaders

/-- `json.dumps({"error": msg})` for the error payloads the handler
synthesises. -/
def jsonError (msg : String) : String :=
  "\x7b\"error\": \"" ++ msg ++ "\"\x7d"

/-- The caller-visible `(body, status_code, headers)` triple returned by
the handler. -/
structure HttpResponse where
  body : String
  status : Nat
  headers : List (String × String)

/-- The upstream predictor's response, as the `requests` response object
exposes it to the handler: `status_code`, raw `content`, and the result of
`response.json()` (`none` models `json.JSONDecodeError`). -/
structure UpstreamResponse where
  status_code : Nat
  content : String
  jsonBody : Option Json

/-- Outcome of `requests.post` to the upstream: either a response object,
or a `requests.exceptions.RequestException` (timeout, connection failure)
carrying its message. -/
inductive UpstreamBehavior where
  | responds (resp : UpstreamResponse)
  | transportError (msg : String)

/-- Behaviour of `bq_client.insert_rows_json`: return a (possibly empty)
list of per-row errors, or raise an exception with a message. -/
inductive SinkBehavior where
  | returns (errs : List String)
  | raises (msg : String)

/-- Environment configuration (PROJECT_ID, DATASET_ID, TABLE_ID). -/
structure Config where
  projectId : String
  datasetId : String
  tableId : String

/-- `table_ref = f"{PROJECT_ID}.{DATASET_ID}.{TABLE_ID}"`. -/
def Config.tableRef (c : Config) : String :=
  c.projectId ++ "." ++ c.datasetId ++ "." ++ c.tableId

/-- The environment of one handler invocation: configuration, the clock
value at handler entry (`t0`) and at the point the upstream outcome is
obtained (`t1`), the `datetime.utcnow().isoformat()` string, the upstream
behaviour and the audit-sink behaviour. -/
structure Env where
  conf : Config
  t0 : ℚ
  t1 : ℚ
  nowIso : String
  upstream : UpstreamBehavior
  sink : SinkBehavior

/-- One audit row as built by the handler (main.py lines 94-101 and
124-131). -/
structure AuditRow where
  timestamp : String
  week_start : Json
  predictions : Json
  client_ip : Option String
  response_time_ms : ℚ
  status_code : Nat

/-- One call to `insert_rows_json`: the table reference and the list of
rows passed. -/
structure SinkCall where
  tableRef : String
  rows : List AuditRow

/-- Everything observable about one handler invocation: the returned
triple, the JSON bodies POSTed upstream, the sink calls attempted, and the
`print` log lines. -/
structure HandlerResult where
  response : HttpResponse
  upstreamCalls : List Json
  sinkCalls : List SinkCall
  logLines : List String

/-- Embedding of `predict_with_logging` (main.py lines 31-148). -/
def predict_with_logging (env : Env) (request : Request) : HandlerResult :=
  let client_ip := extractClientIp request.xForwardedFor request.remoteAddr
  if request.method = "OPTIONS" then
    { response := { body := "", status := 204, headers := corsHeaders },
      upstreamCalls := [], sinkCalls := [], logLines := [] }
  else
    match request.body with
    | none =>
        { response := { body := jsonError "Request must be JSON", status := 400,
                        headers := jsonHeaders },
          upstreamCalls := [], sinkCalls := [], logLines := [] }
    | some request_json =>
      if ¬ request_json.truthy then
        { response := { body := jsonError "Request must be JSON", status := 400,
                        headers := jsonHeaders },
          upstreamCalls := [], sinkCalls := [], logLines := [] }
      else
        match request_json with
        | .obj fields =>
          let week_start := (fields.lookup "week_start").getD Json.null
          if ¬ week_start.truthy then
            { response := { body := jsonError "week_start is required", status := 400,
                            headers := jsonHeaders },
              upstreamCalls := [], sinkCalls := [], logLines := [] }
          else
            match env.upstream with
            | .responds resp =>
                let response_time_ms := (env.t1 - env.t0) * 1000
                let status_code := resp.status_code
                let predictions :=
                  if status_code = 200 then
                    match resp.jsonBody with
                    | some j => j
                    | none => Json.arr []
                  else Json.arr []
                let row : AuditRow :=
                  { timestamp := env.nowIso, week_start := week_start,
                    predictions := predictions, client_ip := client_ip,
                    response_time_ms := response_time_ms, status_code := status_code }
                let logLines :=
                  match env.sink with
                  | .returns errs =>
                      if errs.isEmpty then []
                      else ["BigQuery insert errors: " ++ String.intercalate ", " errs]
                  | .raises msg => ["Failed to log to BigQuery: " ++ msg]
                { response := { body := resp.content, status := status_code,
                                headers := jsonHeaders },
                  upstreamCalls := [Json.obj fields],
                  sinkCalls := [{ tableRef := env.conf.tableRef, rows := [row] }],
                  logLines := logLines }
            | .transportError msg =>
                let response_time_ms := (env.t1 - env.t0) * 1000
                let row : AuditRow :=
                  { timestamp := env.nowIso,
                    week_start := (fields.lookup "week_start").getD (Json.str "unknown"),
                    predictions := Json.arr [], client_ip := client_ip,
                    response_time_ms := response_time_ms, status_code := 500 }
                let logLines :=
                  match env.sink with
                  | .returns _ => ["Error calling original function: " ++ msg]
                  | .raises logMsg =>
                      ["Error calling original function: " ++ msg,
                       "Failed to log error to BigQuery: " ++ logMsg]
                { response := { body := jsonError "Failed to get predictions", status := 500,
                                headers := jsonHeaders },
                  upstreamCalls := [Json.obj fields],
                  sinkCalls := [{ tableRef := env.conf.tableRef, rows := [row] }],
                  logLines := logLines }
        | _ =>
            -- `request_json.get(...)` on a non-dict raises AttributeError,
            -- caught by the generic `except Exception` (main.py lines 142-148).
            { response := { body := jsonError "Internal server error", status := 500,
                            headers := jsonHeaders },
              upstreamCalls := [], sinkCalls := [],
              logLines := ["Unexpected error: AttributeError"] }

/-- A request passes validation and reaches the upstream call (and hence the
audit-write step) iff it is non-OPTIONS, its body parses to a truthy JSON
object, and that object's `week_start` member is truthy. -/
def reachesUpstream (req : Request) : Bool :=
  if req.method = "OPTIONS" then false
  else
    match req.body with
    | some (Json.obj fields) =>
        (Json.obj fields).truthy && ((fields.lookup "week_start").getD Json.null).truthy
    | _ => false

/-- Total number of audit rows passed to the sink across all attempted
insert calls of one invocation. -/
def auditRowsAttempted (r : HandlerResult) : ℕ :=
  (r.sinkCalls.map (fun c => c.rows.length)).sum

/-- Characterisation of the handler on a validated request whose upstream
call returns a response object. -/
theorem predict_valid_responds (env : Env) (req : Request)
    (fields : List (String × Json)) (resp : UpstreamResponse)
    (hm : ¬ req.method = "OPTIONS")
    (hb : req.body = some (Json.obj fields))
    (htr : (Json.obj fields).truthy = true)
    (hws : ((fields.lookup "week_start").getD Json.null).truthy = true)
    (hu : env.upstream = .responds resp) :
    predict_with_logging env req =
      { response := { body := resp.content, status := resp.status_code,
                      headers := jsonHeaders },
        upstreamCalls := [Json.obj fields],
        sinkCalls := [{ tableRef := env.conf.tableRef,
                        rows := [{ timestamp := env.nowIso,
                                   week_start := (fields.lookup "week_start").getD Json.null,
                                   predictions :=
                                     if resp.status_code = 200 then
                                       resp.jsonBody.getD (Json.arr [])
                                     else Json.arr [],
                                   client_ip := extractClientIp req.xForwardedFor req.remoteAddr,
                                   response_time_ms := (env.t1 - env.t0) * 1000,
                                   status_code := resp.status_code }] }],
        logLines :=
          match env.sink with
          | .returns errs =>
              if errs.isEmpty then []
              else ["BigQuery insert errors: " ++ String.intercalate ", " errs]
          | .raises msg => ["Failed to log to BigQuery: " ++ msg] } := by
  simp only [predict_with_logging, hb, hu, if_neg hm, htr, hws]
  simp only [not_true, if_neg, ite_false]
  cases hj : resp.jsonBody <;> rfl

/-- Characterisation of the handler on a validated request whose upstream
call raises a transport error. -/
theorem predict_valid_transport (env : Env) (req : Request)
    (fields : List (String × Json)) (msg : String)
    (hm : ¬ req.method = "OPTIONS")
    (hb : req.body = some (Json.obj fields))
    (htr : (Json.obj fields).truthy = true)
    (hws : ((fields.lookup "week_start").getD Json.null).truthy = true)
    (hu : env.upstream = .transportError msg) :
    predict_with_logging env req =
      { response := { body := jsonError "Failed to get predictions", status := 500,
                      headers := jsonHeaders },
        upstreamCalls := [Json.obj fields],
        sinkCalls := [{ tableRef := env.conf.tableRef,
                        rows := [{ timestamp := env.nowIso,
                                   week_start := (fields.lookup "week_start").getD (Json.str "unknown"),
                                   predictions := Json.arr [],
                                   client_ip := extractClientIp req.xForwardedFor req.remoteAddr,
                                   response_time_ms := (env.t1 - env.t0) * 1000,
                                   status_code := 500 }] }],
        logLines :=
          match env.sink with
          | .returns _ => ["Error calling original function: " ++ msg]
          | .raises logMsg =>
              ["Error calling original function: " ++ msg,
               "Failed to log error to BigQuery: " ++ logMsg] } := by
  simp only [predict_with_logging, hb, hu, if_neg hm, htr, hws]
  simp only [not_true, if_neg, ite_false]

/-! Concrete fixtures used by witnesses and counterexamples. -/

/-- A concrete configuration. -/
def confBase : Config :=
  { projectId := "proj", datasetId := "ml_prediction_logs", tableId := "potw_predictions" }

/-- A concrete upstream 200 response carrying a one-element prediction array. -/
def respOkOne : UpstreamResponse :=
  { status_code := 200,
    content := "[\x7b\"name\": \"Player A\"\x7d]",
    jsonBody := some (Json.arr [Json.obj [("name", Json.str "Player A")]]) }

/-- A concrete environment: healthy upstream, healthy sink, clock 0 → 1. -/
def envBase : Env :=
  { conf := confBase, t0 := 0, t1 := 1, nowIso := "2024-01-01T00:00:00",
    upstream := .responds respOkOne, sink := .returns [] }

/-- A concrete valid request body `{"week_start": "2024-01-01"}`. -/
def validFields : List (String × Json) := [("week_start", Json.str "2024-01-01")]

/-- A concrete valid POST request. -/
def reqValid : Request :=
  { method := "POST", xForwardedFor := none, remoteAddr := none,
    body := some (Json.obj validFields) }

/-- C1: for every request that reaches the audit-write step, the
caller-visible `(body, status_code, headers)` triple is identical whatever
the audit sink does — returns an empty error list, returns a non-empty
error list, or raises. -/
theorem sink_noninterference (env : Env) (req : Request) (s1 s2 : SinkBehavior)
    (hreach : reachesUpstream req = true) :
    (predict_with_logging { env with sink := s1 } req).response
      = (predict_with_logging { env with sink := s2 } req).response := by
  clear hreach
  rcases env with ⟨conf, t0, t1, nowIso, upstream, sink⟩
  rcases req with ⟨m, xff, ra, body⟩
  unfold predict_with_logging
  by_cases hm : m = "OPTIONS"
  · simp [hm]
  · simp only [if_neg hm]
    cases body with
    | none => rfl
    | some rj =>
      cases rj with
      | null => rfl
      | bool b => rfl
      | num q => rfl
      | str s => rfl
      | arr xs => rfl
      | obj fields =>
        dsimp only
        by_cases ht : ((Json.obj fields).truthy = true)
        · simp only [ht]
          by_cases hw : (((fields.lookup "week_start").getD Json.null).truthy = true)
          · simp only [hw]
            cases upstream <;> simp
          · simp [hw]
        · simp [ht]

/-- C1 witness: a concrete validated request has the same response under a
healthy sink and a raising sink. -/
theorem sink_noninterference_witness :
    (predict_with_logging { envBase with sink := .returns [] } reqValid).response
      = (predict_with_logging { envBase with sink := .raises "boom" } reqValid).response :=
  sink_noninterference envBase reqValid (.returns []) (.raises "boom") (by decide)

/-- C4: every non-OPTIONS request whose body is absent or not parseable as
JSON gets status 400 with body `{"error": "Request must be JSON"}`, no
upstream call and no audit attempt. -/
theorem non_json_request_400 (env : Env) (req : Request)
    (hm : ¬ req.method = "OPTIONS") (hb : req.body = none) :
    (predict_with_logging env req).response
        = { body := jsonError "Request must be JSON", status := 400,
            headers := jsonHeaders } ∧
      (predict_with_logging env req).upstreamCalls = [] ∧
      (predict_with_logging env req).sinkCalls = [] := by
  unfold predict_with_logging
  simp [if_neg hm, hb]

/-- C4 witness: a POST request with an unparsable body. -/
theorem non_json_request_400_witness :
    (predict_with_logging envBase
        { method := "POST", xForwardedFor := none, remoteAddr := none,
          body := none }).response
      = { body := jsonError "Request must be JSON", status := 400,
          headers := jsonHeaders } :=
  (non_json_request_400 envBase
    { method := "POST", xForwardedFor := none, remoteAddr := none, body := none }
    (by decide) rfl).1

/-- C6: every OPTIONS request returns an empty body, status 204 and the
CORS headers only, with no upstream call and no audit attempt. -/
theorem options_preflight_204 (env : Env) (req : Request)
    (hm : req.method = "OPTIONS") :
    (predict_with_logging env req).response
        = { body := "", status := 204, headers := corsHeaders } ∧
      (predict_with_logging env req).upstreamCalls = [] ∧
      (predict_with_logging env req).sinkCalls = [] := by
  unfold predict_with_logging
  simp [hm]

/-- C6 witness: a concrete OPTIONS request. -/
theorem options_preflight_204_witness :
    (predict_with_logging envBase
        { method := "OPTIONS", xForwardedFor := none, remoteAddr := none,
          body := none }).response
      = { body := "", status := 204, headers := corsHeaders } :=
  (options_preflight_204 envBase
    { method := "OPTIONS", xForwardedFor := none, remoteAddr := none, body := none }
    rfl).1

/-- C2: on a valid request (JSON object body with a non-empty `week_start`
string) whose upstream POST returns 200 with a body decoding to a JSON
array of length n, the handler returns the upstream body with status 200
and submits one audit row whose predictions have length n and whose
status_code is 200. -/
theorem upstream_ok_passthrough_and_audit (env : Env) (req : Request)
    (fields : List (String × Json)) (w : String) (resp : UpstreamResponse)
    (ps : List Json) (n : ℕ)
    (hm : ¬ req.method = "OPTIONS")
    (hb : req.body = some (Json.obj fields))
    (hw : fields.lookup "week_start" = some (Json.str w))
    (hwne : ¬ w = "")
    (hu : env.upstream = .responds resp)
    (hs : resp.status_code = 200)
    (hj : resp.jsonBody = some (Json.arr ps))
    (hn : ps.length = n) :
    (predict_with_logging env req).response
        = { body := resp.content, status := 200, headers := jsonHeaders } ∧
      ∃ row : AuditRow,
        (predict_with_logging env req).sinkCalls
            = [{ tableRef := env.conf.tableRef, rows := [row] }] ∧
        ∃ qs : List Json, row.predictions = Json.arr qs ∧ qs.length = n ∧
          row.status_code = 200 := by
  have htr : (Json.obj fields).truthy = true := by
    cases fields with
    | nil => simp [List.lookup] at hw
    | cons a as => simp [Json.truthy]
  have hws : ((fields.lookup "week_start").getD Json.null).truthy = true := by
    rw [hw]
    simp [Option.getD, Json.truthy, hwne]
  rw [predict_valid_responds env req fields resp hm hb htr hws hu]
  refine ⟨by rw [hs], ?_⟩
  refine ⟨_, rfl, ps, ?_, hn, hs⟩
  simp [hs, hj]

/-- C2 witness: the fixture request against a healthy upstream returning a
one-element array. -/
theorem upstream_ok_passthrough_and_audit_witness :
    (predict_with_logging envBase reqValid).response
      = { body := respOkOne.content, status := 200, headers := jsonHeaders } :=
  (upstream_ok_passthrough_and_audit envBase reqValid validFields "2024-01-01" respOkOne
    [Json.obj [("name", Json.str "Player A")]] 1
    (by decide) rfl rfl (by decide) rfl rfl rfl rfl).1

/-- C3: on a valid request whose upstream call raises a transport error,
the handler returns 500 with body `{"error": "Failed to get predictions"}`
and attempts one audit row with status_code 500, empty predictions, and
week_start taken from the parsed body (the dict lookup that falls back to
the sentinel "unknown" only when the key is absent). -/
theorem transport_error_500 (env : Env) (req : Request)
    (fields : List (String × Json)) (w : String) (msg : String)
    (hm : ¬ req.method = "OPTIONS")
    (hb : req.body = some (Json.obj fields))
    (hw : fields.lookup "week_start" = some (Json.str w))
    (hwne : ¬ w = "")
    (hu : env.upstream = .transportError msg) :
    (predict_with_logging env req).response
        = { body := jsonError "Failed to get predictions", status := 500,
            headers := jsonHeaders } ∧
      ∃ row : AuditRow,
        (predict_with_logging env req).sinkCalls
            = [{ tableRef := env.conf.tableRef, rows := [row] }] ∧
        row.status_code = 500 ∧
        row.predictions = Json.arr [] ∧
        row.week_start = (fields.lookup "week_start").getD (Json.str "unknown") ∧
        row.week_start = Json.str w := by
  have htr : (Json.obj fields).truthy = true := by
    cases fields with
    | nil => simp [List.lookup] at hw
    | cons a as => simp [Json.truthy]
  have hws : ((fields.lookup "week_start").getD Json.null).truthy = true := by
    rw [hw]
    simp [Option.getD, Json.truthy, hwne]
  rw [predict_valid_transport env req fields msg hm hb htr hws hu]
  exact ⟨rfl, _, rfl, rfl, rfl, rfl, by rw [hw]; rfl⟩

/-- A concrete environment whose upstream call raises a timeout. -/
def envDown : Env := { envBase with upstream := .transportError "timeout" }

/-- C3 witness: the fixture request against a timed-out upstream. -/
theorem transport_error_500_witness :
    (predict_with_logging envDown reqValid).response
      = { body := jsonError "Failed to get predictions", status := 500,
          headers := jsonHeaders } :=
  (transport_error_500 envDown reqValid validFields "2024-01-01" "timeout"
    (by decide) rfl rfl (by decide) rfl).1

/-- A concrete upstream 503 response. -/
def respBusy : UpstreamResponse :=
  { status_code := 503, content := "service busy", jsonBody := none }

/-- A concrete environment whose upstream returns 503. -/
def envBusy : Env := { envBase with upstream := .responds respBusy }

/-- C8: on a valid request whose upstream returns a non-200 status, the
handler passes the upstream's raw body and status code through unchanged
and the audit row's predictions field is the empty sequence. -/
theorem upstream_non200_passthrough (env : Env) (req : Request)
    (fields : List (String × Json)) (w : String) (resp : UpstreamResponse)
    (hm : ¬ req.method = "OPTIONS")
    (hb : req.body = some (Json.obj fields))
    (hw : fields.lookup "week_start" = some (Json.str w))
    (hwne : ¬ w = "")
    (hu : env.upstream = .responds resp)
    (hns : ¬ resp.status_code = 200) :
    (predict_with_logging env req).response
        = { body := resp.content, status := resp.status_code,
            headers := jsonHeaders } ∧
      ∃ row : AuditRow,
        (predict_with_logging env req).sinkCalls
            = [{ tableRef := env.conf.tableRef, rows := [row] }] ∧
        row.predictions = Json.arr [] := by
  have htr : (Json.obj fields).truthy = true := by
    cases fields with
    | nil => simp [List.lookup] at hw
    | cons a as => simp [Json.truthy]
  have hws : ((fields.lookup "week_start").getD Json.null).truthy = true := by
    rw [hw]
    simp [Option.getD, Json.truthy, hwne]
  rw [predict_valid_responds env req fields resp hm hb htr hws hu]
  exact ⟨rfl, _, rfl, by simp [hns]⟩

/-- C8 witness: the fixture request against an upstream answering 503. -/
theorem upstream_non200_passthrough_witness :
    (predict_with_logging envBusy reqValid).response
      = { body := respBusy.content, status := respBusy.status_code,
          headers := jsonHeaders } :=
  (upstream_non200_passthrough envBusy reqValid validFields "2024-01-01" respBusy
    (by decide) rfl rfl (by decide) rfl (by decide)).1

/-- A concrete upstream 200 response whose body decodes to a JSON object,
not an array. -/
def respObj : UpstreamResponse :=
  { status_code := 200, content := "\x7b\"status\": \"ok\"\x7d",
    jsonBody := some (Json.obj [("status", Json.str "ok")]) }

/-- A concrete environment whose upstream returns 200 with a non-array
JSON body. -/
def envObj : Env := { envBase with upstream := .responds respObj }

/-- C10: on a valid request whose upstream returns 200 with a body that
decodes as a JSON value that is not an array, the audit row's predictions
field is that decoded value verbatim (no shape validation), while the
upstream body and status still pass through to the caller unchanged. -/
theorem predictions_verbatim_nonarray (env : Env) (req : Request)
    (fields : List (String × Json)) (w : String) (resp : UpstreamResponse)
    (j : Json)
    (hm : ¬ req.method = "OPTIONS")
    (hb : req.body = some (Json.obj fields))
    (hw : fields.lookup "week_start" = some (Json.str w))
    (hwne : ¬ w = "")
    (hu : env.upstream = .responds resp)
    (hs : resp.status_code = 200)
    (hj : resp.jsonBody = some j)
    (hna : j.isArr = false) :
    (predict_with_logging env req).response
        = { body := resp.content, status := 200, headers := jsonHeaders } ∧
      ∃ row : AuditRow,
        (predict_with_logging env req).sinkCalls
            = [{ tableRef := env.conf.tableRef, rows := [row] }] ∧
        row.predictions = j := by
  have htr : (Json.obj fields).truthy = true := by
    cases fields with
    | nil => simp [List.lookup] at hw
    | cons a as => simp [Json.truthy]
  have hws : ((fields.lookup "week_start").getD Json.null).truthy = true := by
    rw [hw]
    simp [Option.getD, Json.truthy, hwne]
  rw [predict_valid_responds env req fields resp hm hb htr hws hu]
  exact ⟨by rw [hs], _, rfl, by simp [hs, hj]⟩

/-- C10 witness: the fixture request against an upstream answering 200
with a JSON object body. -/
theorem predictions_verbatim_nonarray_witness :
    (predict_with_logging envObj reqValid).response
      = { body := respObj.content, status := 200, headers := jsonHeaders } :=
  (predictions_verbatim_nonarray envObj reqValid validFields "2024-01-01" respObj
    (Json.obj [("status", Json.str "ok")])
    (by decide) rfl rfl (by decide) rfl rfl rfl rfl).1

/-- C5 counterexample: the body `{}` is valid JSON in which `week_start`
is missing, yet the handler's Python-truthiness check `if not request_json`
routes it to the 400 "Request must be JSON" response, not the 400
"week_start is required" response the claim requires. -/
theorem empty_object_gets_must_be_json :
    (predict_with_logging envBase
        { method := "POST", xForwardedFor := none, remoteAddr := none,
          body := some (Json.obj []) }).response
        = { body := jsonError "Request must be JSON", status := 400,
            headers := jsonHeaders } ∧
      ¬ jsonError "Request must be JSON" = jsonError "week_start is required" :=
  ⟨rfl, by decide⟩

/-- C5 (amended): for every non-OPTIONS request whose body parses to a
truthy (non-empty) JSON object whose `week_start` member is missing or
falsy, the handler returns 400 with `{"error": "week_start is required"}`,
makes no upstream call and attempts no audit row. -/
theorem truthy_object_missing_week_start_400 (env : Env) (req : Request)
    (fields : List (String × Json))
    (hm : ¬ req.method = "OPTIONS")
    (hb : req.body = some (Json.obj fields))
    (htr : (Json.obj fields).truthy = true)
    (hws : ((fields.lookup "week_start").getD Json.null).truthy = false) :
    (predict_with_logging env req).response
        = { body := jsonError "week_start is required", status := 400,
            headers := jsonHeaders } ∧
      (predict_with_logging env req).upstreamCalls = [] ∧
      (predict_with_logging env req).sinkCalls = [] := by
  unfold predict_with_logging
  simp [if_neg hm, hb, htr, hws]

/-- C5 (amended) witness: the body `{"week_start": ""}` is a truthy object
with an empty `week_start`. -/
theorem truthy_object_missing_week_start_400_witness :
    (predict_with_logging envBase
        { method := "POST", xForwardedFor := none, remoteAddr := none,
          body := some (Json.obj [("week_start", Json.str "")]) }).response
      = { body := jsonError "week_start is required", status := 400,
          headers := jsonHeaders } :=
  (truthy_object_missing_week_start_400 envBase
    { method := "POST", xForwardedFor := none, remoteAddr := none,
      body := some (Json.obj [("week_start", Json.str "")]) }
    [("week_start", Json.str "")] (by decide) rfl (by decide) (by decide)).1

/-- C7 counterexample: a POST request with an unparsable body is a
non-OPTIONS request (it reaches the JSON-parsing step), yet zero audit
insertions are attempted for it. -/
theorem nonoptions_request_zero_audit :
    ¬ "POST" = "OPTIONS" ∧
    (predict_with_logging envBase
        { method := "POST", xForwardedFor := none, remoteAddr := none,
          body := none }).sinkCalls = [] :=
  ⟨by decide, rfl⟩

/-- C7 (amended): exactly one audit-row insertion is attempted iff the
request passes validation and reaches the upstream call (non-OPTIONS,
truthy JSON-object body, truthy `week_start`); otherwise — OPTIONS
preflight, unparsable or falsy body, non-object body, or missing/falsy
`week_start` — none is attempted. -/
theorem audit_rows_attempted_iff_reaches_upstream (env : Env) (req : Request) :
    auditRowsAttempted (predict_with_logging env req)
      = if reachesUpstream req then 1 else 0 := by
  rcases env with ⟨conf, t0, t1, nowIso, upstream, sink⟩
  rcases req with ⟨m, xff, ra, body⟩
  unfold auditRowsAttempted reachesUpstream predict_with_logging
  by_cases hm : m = "OPTIONS"
  · simp [hm]
  · simp only [if_neg hm]
    cases body with
    | none => simp
    | some rj =>
      cases rj with
      | null => simp [Json.truthy]
      | bool b => cases b <;> simp [Json.truthy]
      | num q => by_cases hq : q = 0 <;> simp [Json.truthy, hq]
      | str s => by_cases hs : s = "" <;> simp [Json.truthy, hs]
      | arr xs => cases xs <;> simp [Json.truthy]
      | obj fields =>
        by_cases ht : ((Json.obj fields).truthy = true)
        · by_cases hwt : (((fields.lookup "week_start").getD Json.null).truthy = true)
          · simp only [ht, hwt]
            cases upstream <;> simp
          · simp [ht, hwt]
        · simp [ht]

/-- C9: on every exit path, every audit row's `response_time_ms` equals
the elapsed time from the single clock read at handler entry to the clock
read when the upstream outcome was obtained, scaled to milliseconds, and
is non-negative whenever the clock did not run backwards. -/
theorem response_time_from_entry (env : Env) (req : Request)
    (h01 : env.t0 ≤ env.t1) (row : AuditRow)
    (hrow : ∃ call ∈ (predict_with_logging env req).sinkCalls, row ∈ call.rows) :
    row.response_time_ms = (env.t1 - env.t0) * 1000 ∧ 0 ≤ row.response_time_ms := by
  have hms : row.response_time_ms = (env.t1 - env.t0) * 1000 := by
    obtain ⟨call, hcall, hr⟩ := hrow
    rcases env with ⟨conf, t0, t1, nowIso, upstream, sink⟩
    rcases req with ⟨m, xff, ra, body⟩
    unfold predict_with_logging at hcall
    by_cases hm : m = "OPTIONS"
    · simp [hm] at hcall
    · simp only [if_neg hm] at hcall
      cases body with
      | none => simp at hcall
      | some rj =>
        cases rj with
        | null => simp [Json.truthy] at hcall
        | bool b => cases b <;> simp [Json.truthy] at hcall
        | num q => by_cases hq : q = 0 <;> simp [Json.truthy, hq] at hcall
        | str s => by_cases hs : s = "" <;> simp [Json.truthy, hs] at hcall
        | arr xs => cases xs <;> simp [Json.truthy] at hcall
        | obj fields =>
          by_cases ht : ((Json.obj fields).truthy = true)
          · by_cases hwt : (((fields.lookup "week_start").getD Json.null).truthy = true)
            · simp only [ht, hwt] at hcall
              cases upstream with
              | responds resp =>
                simp at hcall
                subst hcall
                simp at hr
                subst hr
                rfl
              | transportError msg =>
                simp at hcall
                subst hcall
                simp at hr
                subst hr
                rfl
            · simp [ht, hwt] at hcall
          · simp [ht] at hcall
  refine ⟨hms, ?_⟩
  rw [hms]
  exact mul_nonneg (sub_nonneg.mpr h01) (by norm_num)

/-- The audit row produced by the fixture request under `envBase`. -/
def rowW : AuditRow :=
  { timestamp := "2024-01-01T00:00:00", week_start := Json.str "2024-01-01",
    predictions := Json.arr [Json.obj [("name", Json.str "Player A")]],
    client_ip := none, response_time_ms := (1 - 0) * 1000,
    status_code := 200 }

/-- C9 witness: the fixture request's audit row. -/
theorem response_time_from_entry_witness :
    rowW.response_time_ms = (envBase.t1 - envBase.t0) * 1000 ∧
      0 ≤ rowW.response_time_ms :=
  response_time_from_entry envBase reqValid (by decide) rowW
    ⟨{ tableRef := confBase.tableRef, rows := [rowW] },
     by
      rw [predict_valid_responds envBase reqValid validFields respOkOne (by decide) rfl
        (by decide) (by decide) rfl]
      exact List.mem_singleton.mpr rfl,
     List.mem_singleton.mpr rfl⟩
